import Mathlib

/-!
Shallow embedding of `src/app.py` (a Streamlit front-end for a disposable
e-mail service).  Strings are embedded as `List Char`; the remote HTTP calls
are embedded by passing their outcome (`ApiResponse`) or, for the polling
loop, an oracle `check : Nat → List Message` giving the response to the k-th
`check_messages` call, as an explicit argument.  Streamlit's
`st.session_state` is the record `SessionState`; the button handlers and the
automatic polling pass of `main` become the `step` function on that record.
-/

namespace TempMail

/-- Character class of the regex `[a-zA-Z0-9_-]` in `validate_email_name`
(`src/app.py` line 55).  Python character-class ranges over a `str` pattern
are ASCII-only. -/
def isAllowedChar (c : Char) : Bool :=
  (decide ('a' ≤ c) && decide (c ≤ 'z')) ||
  (decide ('A' ≤ c) && decide (c ≤ 'Z')) ||
  (decide ('0' ≤ c) && decide (c ≤ '9')) ||
  decide (c = '_') || decide (c = '-')

/-- `validate_email_name` (`src/app.py` lines 54-56):
`bool(re.compile(r"^[a-zA-Z0-9_-]+$").match(name))`.
In Python (without `re.MULTILINE`), `$` matches at the end of the string or
just before a newline at the very end of the string, and the class
`[a-zA-Z0-9_-]` cannot consume `'\n'`; hence the regex matches exactly when
the input, after removing at most one trailing newline, is a non-empty string
of allowed characters. -/
def validate_email_name (name : List Char) : Bool :=
  let body := if name.getLast? = some '\n' then name.dropLast else name
  !body.isEmpty && body.all isAllowedChar

/-- A message record as consumed by the app: `msg['from']`, `msg['subject']`,
`msg['body_text']` (`src/app.py` lines 207-210). -/
structure Message where
  from_ : String
  subject : String
  body_text : String
deriving DecidableEq

/-- Outcome of one HTTP request as seen by the `try/except` blocks of
`src/app.py`: a 2xx response with a parsed body, a non-2xx status (on which
`raise_for_status` raises `requests.HTTPError`), or a transport-level
`requests.RequestException`. -/
inductive ApiResponse (α : Type) where
  | success (body : α)
  | httpError (status : Nat)
  | networkError
deriving DecidableEq

/-- `generate_email` (`src/app.py` lines 25-33): on a 2xx response returns
`response.json()["email"]`; any `RequestException` (non-2xx after
`raise_for_status`, or transport error) is caught, an error is shown, and
`None` is returned. -/
def generate_email (resp : ApiResponse (List Char)) : Option (List Char) :=
  match resp with
  | .success email => some email
  | .httpError _ => none
  | .networkError => none

/-- `check_messages` (`src/app.py` lines 37-44): on a 2xx response returns the
parsed JSON array; any `RequestException` is caught, an error is shown, and
`[]` is returned (failure is indistinguishable from an empty mailbox). -/
def check_messages (resp : ApiResponse (List Message)) : List Message :=
  match resp with
  | .success msgs => msgs
  | .httpError _ => []
  | .networkError => []

/-- The `st.session_state` fields initialised in `main`
(`src/app.py` lines 65-76). -/
structure SessionState where
  generated_email : Option (List Char)
  polling_complete : Bool
  messages : List Message
  polling_attempts : Nat
  max_attempts : Nat
  custom_name : List Char
deriving DecidableEq

/-- The session state after the initialisation block of `main`
(`src/app.py` lines 65-76) on a fresh session. -/
def initState : SessionState :=
  { generated_email := none
    polling_complete := false
    messages := []
    polling_attempts := 0
    max_attempts := 6
    custom_name := [] }

/-- Result of one run of `perform_polling`: the final session state, the
number of `time.sleep(5)` delays performed, and the number of
`check_messages` calls made. -/
structure PollOutcome where
  state : SessionState
  sleeps : Nat
  calls : Nat
deriving DecidableEq

/-- The body of the `for attempt in range(max_attempts)` loop of
`perform_polling` (`src/app.py` lines 199-222), recursing on the number of
remaining iterations.  Each iteration increments `polling_attempts`, calls
`check_messages` (oracle `check` at the current loop index); a non-empty
result is stored, `polling_complete` is set and the loop returns with no
sleep; an empty result falls through to `time.sleep(5)` and the next
iteration.  When the range is exhausted, `polling_complete` is set. -/
def perform_polling_loop (check : Nat → List Message) (s : SessionState)
    (attempt remaining sleeps calls : Nat) : PollOutcome :=
  match remaining with
  | 0 =>
    { state := { s with polling_complete := true }, sleeps := sleeps, calls := calls }
  | r + 1 =>
    let s1 := { s with polling_attempts := s.polling_attempts + 1 }
    let msgs := check attempt
    if msgs ≠ [] then
      { state := { s1 with messages := msgs, polling_complete := true }
        sleeps := sleeps
        calls := calls + 1 }
    else
      perform_polling_loop check s1 (attempt + 1) r (sleeps + 1) (calls + 1)

/-- `perform_polling` (`src/app.py` lines 198-222), started at loop index 0
with `range(st.session_state["max_attempts"])`. -/
def perform_polling (check : Nat → List Message) (s : SessionState) : PollOutcome :=
  perform_polling_loop check s 0 s.max_attempts 0 0

/-- Result of the "Generate New Email" button handler: the session state
afterwards, whether `generate_email` (a network call) was invoked, and
whether an error was reported to the user. -/
structure ActionResult where
  state : SessionState
  network_called : Bool
  error_reported : Bool
deriving DecidableEq

/-- The allocation half of the button handler (`src/app.py` lines 151-162):
call `generate_email`; if it returned an address, store it and reset
`messages`, `polling_complete`, `polling_attempts` and `custom_name`;
otherwise leave the session state untouched (the error was already shown
inside `generate_email`). -/
def apply_allocation (s : SessionState) (resp : ApiResponse (List Char)) : ActionResult :=
  match generate_email resp with
  | some e =>
    { state := { s with
        generated_email := some e
        messages := []
        polling_complete := false
        polling_attempts := 0
        custom_name := [] }
      network_called := true
      error_reported := false }
  | none =>
    { state := s, network_called := true, error_reported := true }

/-- The "🔄 Generate New Email" button handler (`src/app.py` lines 139-162):
with a non-empty custom name the name must pass `validate_email_name`,
otherwise `st.error` + `st.stop()` halt the run before any network call; with
an empty custom name a random name is used.  `en` is the custom name typed by
the user, `rn` the random name `random_word` would produce, `resp` the
outcome of the allocation request. -/
def generate_button (s : SessionState) (en rn : List Char)
    (resp : ApiResponse (List Char)) : ActionResult :=
  if en ≠ [] then
    if validate_email_name en then
      apply_allocation s resp
    else
      { state := s, network_called := false, error_reported := true }
  else
    apply_allocation s resp

/-- The "🔄 Manually Check for New Messages" button handler
(`src/app.py` lines 249-261): one `check_messages` call; a non-empty result
replaces `st.session_state["messages"]`, an empty result changes nothing. -/
def manual_check (s : SessionState) (msgs : List Message) : SessionState :=
  if msgs ≠ [] then { s with messages := msgs } else s

/-- One user-visible interaction with `main`, with the outcome of any remote
call it performs supplied as data. -/
inductive UiEvent where
  | setName (v : List Char)
  | generateBtn (en rn : List Char) (resp : ApiResponse (List Char))
  | renderInbox (check : Nat → List Message)
  | manualBtn (resp : ApiResponse (List Message))

/-- The state transition of one interaction with `main`:
`setName` is the unconditional `st.session_state["custom_name"] = ...` of
line 134; `generateBtn` is the button handler; `renderInbox` runs
`perform_polling` exactly under the guard of lines 225-228 (an address
exists — tab 2 stops at line 185 otherwise — and `polling_complete` is false
and `polling_attempts < max_attempts`); `manualBtn` runs the manual check,
whose button is only rendered when an address exists and `polling_complete`
is true (lines 244-249). -/
def step (s : SessionState) : UiEvent → SessionState
  | .setName v => { s with custom_name := v }
  | .generateBtn en rn resp => (generate_button s en rn resp).state
  | .renderInbox check =>
    if s.generated_email.isSome && !s.polling_complete &&
        decide (s.polling_attempts < s.max_attempts) then
      (perform_polling check s).state
    else s
  | .manualBtn resp =>
    if s.generated_email.isSome && s.polling_complete then
      manual_check s (check_messages resp)
    else s

/-- Session states reachable from a fresh session by user interactions. -/
inductive Reachable : SessionState → Prop where
  | init : Reachable initState
  | next (s : SessionState) (e : UiEvent) : Reachable s → Reachable (step s e)

/-! ### Specification-side predicate for the allowed character class -/

/-- The character class of the spec, stated independently of the code:
ASCII letter, digit, underscore, or hyphen. -/
def AllowedSpec (c : Char) : Prop :=
  ('a' ≤ c ∧ c ≤ 'z') ∨ ('A' ≤ c ∧ c ≤ 'Z') ∨ ('0' ≤ c ∧ c ≤ '9') ∨ c = '_' ∨ c = '-'

instance (c : Char) : Decidable (AllowedSpec c) := by
  unfold AllowedSpec; infer_instance

lemma isAllowedChar_iff (c : Char) : isAllowedChar c = true ↔ AllowedSpec c := by
  simp only [isAllowedChar, AllowedSpec, Bool.or_eq_true, Bool.and_eq_true,
    decide_eq_true_eq]
  tauto

lemma newline_not_allowed : isAllowedChar '\n' = false := by decide

/-! ### C1 -/

/-- Claim C1, counterexample: `validate_email_name "abc\n"` returns `true`
although `'\n'` is not an allowed character, so the claimed equivalence
("true iff every character is an ASCII letter, digit, underscore or hyphen")
fails at the input `"abc\n"`. -/
theorem C1_counterexample :
    validate_email_name ('a' :: 'b' :: 'c' :: '\n' :: []) = true ∧
    ¬ (('a' :: 'b' :: 'c' :: '\n' :: []) ≠ [] ∧
        ∀ c ∈ ('a' :: 'b' :: 'c' :: '\n' :: []), AllowedSpec c) := by
  constructor
  · decide
  · intro h
    have := h.2 '\n' (by decide)
    revert this
    decide

/-- Claim C1 (amended): `validate_email_name name` is true iff either `name`
is non-empty and every character is an ASCII letter, digit, underscore or
hyphen, or `name` is such a non-empty run of allowed characters followed by a
single trailing newline — Python's `$` also matches just before a newline at
the end of the string, so exactly one trailing `'\n'` is tolerated; every
other disallowed character (embedded `'@'`, space, unicode, an interior or
doubled newline) makes it return false. -/
theorem C1_amended (name : List Char) :
    validate_email_name name = true ↔
      ((name ≠ [] ∧ ∀ c ∈ name, AllowedSpec c) ∨
        (∃ core, name = core ++ ['\n'] ∧ core ≠ [] ∧ ∀ c ∈ core, AllowedSpec c)) := by
  unfold validate_email_name
  by_cases hlast : name.getLast? = some '\n'
  · simp only [hlast, if_pos rfl]
    rcases List.eq_nil_or_concat name with rfl | ⟨core, x, rfl⟩
    · simp at hlast
    · have hx : x = '\n' := by
        have := hlast
        rw [List.concat_eq_append, List.getLast?_append_cons] at this
        simpa using this
      subst hx
      simp only [List.concat_eq_append, List.dropLast_concat]
      constructor
      · intro h
        right
        refine ⟨core, rfl, ?_, ?_⟩
        · intro hnil
          simp [hnil] at h
        · intro c hc
          have := (List.all_eq_true.mp (Bool.and_elim_right h)) c hc
          exact (isAllowedChar_iff c).mp this
      · rintro (⟨hne, hall⟩ | ⟨core2, heq, hne, hall⟩)
        · exfalso
          have := hall '\n' (by simp)
          revert this
          decide
        · have hcc : core2 = core := (List.append_cancel_right heq).symm
          subst hcc
          simp only [Bool.and_eq_true]
          refine ⟨?_, ?_⟩
          · simpa [List.isEmpty_iff] using hne
          · exact List.all_eq_true.mpr fun c hc => (isAllowedChar_iff c).mpr (hall c hc)
  · simp only [hlast, if_neg]
    constructor
    · intro h
      left
      refine ⟨?_, ?_⟩
      · intro hnil
        simp [hnil] at h
      · intro c hc
        have := (List.all_eq_true.mp (Bool.and_elim_right h)) c hc
        exact (isAllowedChar_iff c).mp this
    · rintro (⟨hne, hall⟩ | ⟨core, heq, hne, hall⟩)
      · simp only [Bool.and_eq_true]
        refine ⟨?_, ?_⟩
        · simpa [List.isEmpty_iff] using hne
        · exact List.all_eq_true.mpr fun c hc => (isAllowedChar_iff c).mpr (hall c hc)
      · exfalso
        apply hlast
        subst heq
        rw [List.getLast?_append_cons]
        rfl

/-! ### Unfolding lemmas for the polling loop -/

lemma perform_polling_loop_zero (check : Nat → List Message) (s : SessionState)
    (a sl c : Nat) :
    perform_polling_loop check s a 0 sl c =
      { state := { s with polling_complete := true }, sleeps := sl, calls := c } :=
  rfl

lemma perform_polling_loop_succ_found (check : Nat → List Message) (s : SessionState)
    (a r sl c : Nat) (h : check a ≠ []) :
    perform_polling_loop check s a (r + 1) sl c =
      { state := { s with
          polling_attempts := s.polling_attempts + 1
          messages := check a
          polling_complete := true }
        sleeps := sl
        calls := c + 1 } := by
  simp [perform_polling_loop, h]

lemma perform_polling_loop_succ_empty (check : Nat → List Message) (s : SessionState)
    (a r sl c : Nat) (h : check a = []) :
    perform_polling_loop check s a (r + 1) sl c =
      perform_polling_loop check { s with polling_attempts := s.polling_attempts + 1 }
        (a + 1) r (sl + 1) (c + 1) := by
  simp [perform_polling_loop, h]

/-- Closed form of the loop when every remaining response is empty: the loop
runs all `r` iterations, increments the attempt counter `r` times, performs
`r` sleeps (one after every empty attempt, the last included) and `r` calls,
sets `polling_complete`, and leaves `messages` untouched. -/
lemma perform_polling_loop_all_empty (check : Nat → List Message) :
    ∀ (r : Nat) (s : SessionState) (a sl c : Nat),
      (∀ k, k < r → check (a + k) = []) →
      perform_polling_loop check s a r sl c =
        { state := { s with
            polling_attempts := s.polling_attempts + r
            polling_complete := true }
          sleeps := sl + r
          calls := c + r } := by
  intro r
  induction r with
  | zero =>
    intro s a sl c _
    rw [perform_polling_loop_zero]
    simp
  | succ r ih =>
    intro s a sl c h
    have h0 : check a = [] := by simpa using h 0 (Nat.succ_pos r)
    rw [perform_polling_loop_succ_empty check s a r sl c h0]
    rw [ih _ (a + 1) (sl + 1) (c + 1) (fun k hk => by
      have := h (k + 1) (by omega)
      simpa [Nat.add_assoc, Nat.add_comm 1 k] using this)]
    simp only [PollOutcome.mk.injEq, SessionState.mk.injEq, true_and, and_true]
    omega

/-- Closed form of the loop when the first `j` responses are empty and the
`j`-th (0-based) response is non-empty, with `j` within range: the loop makes
`j + 1` calls and `j` sleeps (none after the non-empty attempt), stores the
non-empty result, and sets `polling_complete`. -/
lemma perform_polling_loop_found (check : Nat → List Message) :
    ∀ (j : Nat) (r : Nat) (s : SessionState) (a sl c : Nat),
      j < r →
      (∀ k, k < j → check (a + k) = []) →
      check (a + j) ≠ [] →
      perform_polling_loop check s a r sl c =
        { state := { s with
            polling_attempts := s.polling_attempts + j + 1
            messages := check (a + j)
            polling_complete := true }
          sleeps := sl + j
          calls := c + j + 1 } := by
  intro j
  induction j with
  | zero =>
    intro r s a sl c hr _ hfound
    match r, hr with
    | r + 1, _ =>
      rw [perform_polling_loop_succ_found check s a r sl c (by simpa using hfound)]
      simp
  | succ j ih =>
    intro r s a sl c hr hemp hfound
    match r, hr with
    | r + 1, hr =>
      have h0 : check a = [] := by simpa using hemp 0 (Nat.succ_pos j)
      rw [perform_polling_loop_succ_empty check s a r sl c h0]
      have haj : a + 1 + j = a + (j + 1) := by omega
      rw [ih r _ (a + 1) (sl + 1) (c + 1) (by omega)
        (fun k hk => by
          have := hemp (k + 1) (by omega)
          simpa [Nat.add_assoc, Nat.add_comm 1 k] using this)
        (by rw [haj]; exact hfound)]
      simp only [PollOutcome.mk.injEq, SessionState.mk.injEq, haj, true_and, and_true]
      omega

/-! ### C2 -/

/-- Claim C2: with `max_attempts = 6`, a fresh attempt counter, the first
five `check_messages` responses empty and the sixth non-empty,
`perform_polling` stores the non-empty result in the session messages, sets
`polling_complete`, stops at the sixth attempt (`polling_attempts = 6`), and
makes exactly six `check_messages` calls (none after the non-empty result). -/
theorem C2_sixth_attempt_found (s : SessionState) (check : Nat → List Message)
    (ms : List Message) (hmax : s.max_attempts = 6) (h0 : s.polling_attempts = 0)
    (hemp : ∀ k, k < 5 → check k = []) (h5 : check 5 = ms) (hne : ms ≠ []) :
    (perform_polling check s).state.messages = ms ∧
    (perform_polling check s).state.polling_complete = true ∧
    (perform_polling check s).state.polling_attempts = 6 ∧
    (perform_polling check s).calls = 6 := by
  unfold perform_polling
  rw [hmax]
  rw [perform_polling_loop_found check 5 6 s 0 0 0 (by omega)
    (fun k hk => by simpa using hemp k hk)
    (by simpa [h5] using hne)]
  simp [h0, h5]

/-- Witness for C2: a concrete oracle answering `[]` five times and one
message on the sixth call. -/
theorem C2_sixth_attempt_found_witness :
    (perform_polling
        (fun k => if k = 5 then [{ from_ := "a", subject := "s", body_text := "b" }] else [])
        initState).state.messages = [{ from_ := "a", subject := "s", body_text := "b" }] ∧
    (perform_polling
        (fun k => if k = 5 then [{ from_ := "a", subject := "s", body_text := "b" }] else [])
        initState).state.polling_complete = true ∧
    (perform_polling
        (fun k => if k = 5 then [{ from_ := "a", subject := "s", body_text := "b" }] else [])
        initState).state.polling_attempts = 6 ∧
    (perform_polling
        (fun k => if k = 5 then [{ from_ := "a", subject := "s", body_text := "b" }] else [])
        initState).calls = 6 :=
  C2_sixth_attempt_found initState
    (fun k => if k = 5 then [{ from_ := "a", subject := "s", body_text := "b" }] else [])
    [{ from_ := "a", subject := "s", body_text := "b" }] rfl rfl
    (fun k hk => by
      have : k ≠ 5 := by omega
      simp [this])
    (by simp) (by simp)

/-! ### C3 -/

/-- Claim C3: with `max_attempts = 3`, a fresh attempt counter, an empty
stored message list and every `check_messages` response empty,
`perform_polling` ends with `polling_complete = true`, `messages = []` and
`polling_attempts = 3`. -/
theorem C3_exhausted_empty (s : SessionState) (check : Nat → List Message)
    (hmax : s.max_attempts = 3) (h0 : s.polling_attempts = 0)
    (hm : s.messages = []) (hemp : ∀ k, check k = []) :
    (perform_polling check s).state.polling_complete = true ∧
    (perform_polling check s).state.messages = [] ∧
    (perform_polling check s).state.polling_attempts = 3 := by
  unfold perform_polling
  rw [hmax]
  rw [perform_polling_loop_all_empty check 3 s 0 0 0 (fun k _ => hemp (0 + k))]
  simp [h0, hm]

/-- Witness for C3: the all-empty oracle on a fresh 3-attempt state. -/
theorem C3_exhausted_empty_witness :
    (perform_polling (fun _ => []) { initState with max_attempts := 3 }).state.polling_complete
        = true ∧
    (perform_polling (fun _ => []) { initState with max_attempts := 3 }).state.messages = [] ∧
    (perform_polling (fun _ => []) { initState with max_attempts := 3 }).state.polling_attempts
        = 3 :=
  C3_exhausted_empty { initState with max_attempts := 3 } (fun _ => [])
    rfl rfl rfl (fun _ => rfl)

/-! ### C7 -/

/-- Claim C7, counterexample: in a 6-attempt run where every response is
empty, the code performs 6 sleeps — `time.sleep(5)` sits inside the loop body
and also runs after the final empty attempt — whereas the claim (delay only
after non-final attempts) predicts 5. -/
theorem C7_counterexample :
    (perform_polling (fun _ => []) initState).sleeps = 6 ∧
    ¬ (perform_polling (fun _ => []) initState).sleeps = 6 - 1 := by
  decide

/-- Claim C7 (amended): the fixed 5-time-unit delay is performed after every
empty attempt — including the final one when all attempts come back empty —
and never after a non-empty result: if the first `j` responses are empty and
either `j = max_attempts` (exhaustion) or the `j`-th response is non-empty,
the run performs exactly `j` delays. -/
theorem C7_sleep_per_empty_attempt (check : Nat → List Message) (s : SessionState)
    (j : Nat) (hj : j ≤ s.max_attempts)
    (hemp : ∀ k, k < j → check k = [])
    (hfound : j < s.max_attempts → check j ≠ []) :
    (perform_polling check s).sleeps = j := by
  unfold perform_polling
  rcases Nat.lt_or_ge j s.max_attempts with hlt | hge
  · rw [perform_polling_loop_found check j s.max_attempts s 0 0 0 hlt
      (fun k hk => by simpa using hemp k hk)
      (by simpa using hfound hlt)]
    simp
  · have hje : s.max_attempts = j := le_antisymm hge hj
    rw [hje]
    rw [perform_polling_loop_all_empty check j s 0 0 0
      (fun k hk => by simpa using hemp k hk)]
    simp

/-- Witness for C7 (amended): an oracle whose third response (index 2) is the
first non-empty one, on the default 6-attempt state: exactly 2 delays. -/
theorem C7_sleep_per_empty_attempt_witness :
    (perform_polling
        (fun k => if k = 2 then [{ from_ := "a", subject := "s", body_text := "b" }] else [])
        initState).sleeps = 2 :=
  C7_sleep_per_empty_attempt
    (fun k => if k = 2 then [{ from_ := "a", subject := "s", body_text := "b" }] else [])
    initState 2 (by decide)
    (fun k hk => by
      have : k ≠ 2 := by omega
      simp [this])
    (fun _ => by simp)

/-! ### C4 -/

/-- Claim C4: when the allocation request fails (non-2xx status or network
error), `generate_email` yields failure (`None`) and the button handler
leaves the session state exactly as it was — the current address is unchanged
and the stored message list is not cleared. -/
theorem C4_allocation_failure_no_update (s : SessionState) (en rn : List Char)
    (resp : ApiResponse (List Char)) (h : ∀ e, resp ≠ ApiResponse.success e) :
    generate_email resp = none ∧ (generate_button s en rn resp).state = s := by
  have hgen : generate_email resp = none := by
    cases resp with
    | success e => exact absurd rfl (h e)
    | httpError st => rfl
    | networkError => rfl
  refine ⟨hgen, ?_⟩
  unfold generate_button apply_allocation
  rw [hgen]
  split
  · split
    · rfl
    · rfl
  · rfl

/-- Witness for C4: a network error on a fresh session with an empty custom
name. -/
theorem C4_allocation_failure_no_update_witness :
    generate_email ApiResponse.networkError = none ∧
    (generate_button initState [] ['x'] ApiResponse.networkError).state = initState :=
  C4_allocation_failure_no_update initState [] ['x'] ApiResponse.networkError
    (fun e h => ApiResponse.noConfusion h)

/-! ### C6 -/

/-- Claim C6: whenever the allocation succeeds (`generate_email` returns an
address) on a branch that reaches the network call (empty custom name, or a
custom name passing validation), the handler stores the new address and
resets the session state regardless of its previous contents: `messages`
cleared to `[]`, `polling_attempts` set to 0, `polling_complete` set to
false. -/
theorem C6_success_resets_state (s : SessionState) (en rn e : List Char)
    (resp : ApiResponse (List Char)) (h : generate_email resp = some e)
    (hv : en = [] ∨ validate_email_name en = true) :
    (generate_button s en rn resp).state.generated_email = some e ∧
    (generate_button s en rn resp).state.messages = [] ∧
    (generate_button s en rn resp).state.polling_attempts = 0 ∧
    (generate_button s en rn resp).state.polling_complete = false := by
  have halloc : apply_allocation s resp =
      { state := { s with
          generated_email := some e
          messages := []
          polling_complete := false
          polling_attempts := 0
          custom_name := [] }
        network_called := true
        error_reported := false } := by
    unfold apply_allocation
    rw [h]
  rcases hv with hv | hv
  · subst hv
    simp only [generate_button, ne_eq, not_true_eq_false, if_false, ite_self]
    rw [halloc]
    exact ⟨rfl, rfl, rfl, rfl⟩
  · unfold generate_button
    rw [hv]
    split
    · rw [if_pos rfl, halloc]
      exact ⟨rfl, rfl, rfl, rfl⟩
    · rw [halloc]
      exact ⟨rfl, rfl, rfl, rfl⟩

/-- Witness for C6: a successful allocation on a state that still holds a
previous address and previous messages. -/
theorem C6_success_resets_state_witness :
    (generate_button
        { initState with
          generated_email := some ['o', '@', 'd']
          messages := [{ from_ := "a", subject := "s", body_text := "b" }]
          polling_complete := true
          polling_attempts := 6 }
        [] ['n'] (ApiResponse.success ['n', '@', 'd'])).state.generated_email
        = some ['n', '@', 'd'] ∧
    (generate_button
        { initState with
          generated_email := some ['o', '@', 'd']
          messages := [{ from_ := "a", subject := "s", body_text := "b" }]
          polling_complete := true
          polling_attempts := 6 }
        [] ['n'] (ApiResponse.success ['n', '@', 'd'])).state.messages = [] ∧
    (generate_button
        { initState with
          generated_email := some ['o', '@', 'd']
          messages := [{ from_ := "a", subject := "s", body_text := "b" }]
          polling_complete := true
          polling_attempts := 6 }
        [] ['n'] (ApiResponse.success ['n', '@', 'd'])).state.polling_attempts = 0 ∧
    (generate_button
        { initState with
          generated_email := some ['o', '@', 'd']
          messages := [{ from_ := "a", subject := "s", body_text := "b" }]
          polling_complete := true
          polling_attempts := 6 }
        [] ['n'] (ApiResponse.success ['n', '@', 'd'])).state.polling_complete = false :=
  C6_success_resets_state
    { initState with
      generated_email := some ['o', '@', 'd']
      messages := [{ from_ := "a", subject := "s", body_text := "b" }]
      polling_complete := true
      polling_attempts := 6 }
    [] ['n'] ['n', '@', 'd'] (ApiResponse.success ['n', '@', 'd']) rfl (Or.inl rfl)

/-! ### C8 -/

/-- Claim C8: a non-empty custom name that fails `validate_email_name` halts
the generate action with an error before any network call: `generate_email`
is never invoked and the session state is returned unchanged. -/
theorem C8_invalid_name_halts (s : SessionState) (en rn : List Char)
    (resp : ApiResponse (List Char)) (hne : en ≠ [])
    (hinv : validate_email_name en = false) :
    generate_button s en rn resp =
      { state := s, network_called := false, error_reported := true } := by
  unfold generate_button
  rw [if_pos hne, hinv]
  rfl

/-- Witness for C8: the custom name `"a@b"` (rejected by the validator) with
a would-have-succeeded allocation response. -/
theorem C8_invalid_name_halts_witness :
    generate_button initState ['a', '@', 'b'] ['x'] (ApiResponse.success ['a', '@', 'b']) =
      { state := initState, network_called := false, error_reported := true } :=
  C8_invalid_name_halts initState ['a', '@', 'b'] ['x']
    (ApiResponse.success ['a', '@', 'b']) (by decide) (by decide)

/-! ### C9 -/

/-- Claim C9: a manual check performed after `polling_complete = true` never
changes `polling_attempts`, and when its `check_messages` result is non-empty
that result becomes the stored message list verbatim (full replacement, never
an append or merge with the previous list). -/
theorem C9_manual_check_replaces (s : SessionState) (resp : ApiResponse (List Message))
    (hc : s.polling_complete = true) :
    (manual_check s (check_messages resp)).polling_attempts = s.polling_attempts ∧
    (check_messages resp ≠ [] →
      (manual_check s (check_messages resp)).messages = check_messages resp) := by
  unfold manual_check
  constructor
  · split
    · rfl
    · rfl
  · intro hne
    rw [if_pos hne]

/-- Witness for C9: a manual check returning one message on a completed state
that already holds a different message. -/
theorem C9_manual_check_replaces_witness :
    (manual_check
        { initState with
          polling_complete := true
          polling_attempts := 6
          messages := [{ from_ := "old", subject := "o", body_text := "o" }] }
        (check_messages
          (ApiResponse.success [{ from_ := "new", subject := "n", body_text := "n" }]))).polling_attempts
      = ({ initState with
          polling_complete := true
          polling_attempts := 6
          messages := [{ from_ := "old", subject := "o", body_text := "o" }] } : SessionState).polling_attempts ∧
    (check_messages
        (ApiResponse.success [{ from_ := "new", subject := "n", body_text := "n" }]) ≠ [] →
      (manual_check
          { initState with
            polling_complete := true
            polling_attempts := 6
            messages := [{ from_ := "old", subject := "o", body_text := "o" }] }
          (check_messages
            (ApiResponse.success [{ from_ := "new", subject := "n", body_text := "n" }]))).messages
        = check_messages
            (ApiResponse.success [{ from_ := "new", subject := "n", body_text := "n" }])) :=
  C9_manual_check_replaces
    { initState with
      polling_complete := true
      polling_attempts := 6
      messages := [{ from_ := "old", subject := "o", body_text := "o" }] }
    (ApiResponse.success [{ from_ := "new", subject := "n", body_text := "n" }]) rfl

/-! ### C10 -/

/-- Claim C10: a manual check whose `check_messages` result is empty — which
covers the failure case, since `check_messages` returns `[]` on any HTTP or
network error — leaves the whole session state unchanged: the stored
messages, the `polling_complete` flag and the current address all survive. -/
theorem C10_empty_manual_check_frame (s : SessionState)
    (resp : ApiResponse (List Message)) (h : check_messages resp = []) :
    manual_check s (check_messages resp) = s := by
  unfold manual_check
  rw [h]
  rfl

/-- Witness for C10: a failed (network-error) manual check on a state holding
a previous message. -/
theorem C10_empty_manual_check_frame_witness :
    manual_check
        { initState with
          polling_complete := true
          messages := [{ from_ := "old", subject := "o", body_text := "o" }] }
        (check_messages (ApiResponse.networkError : ApiResponse (List Message)))
      = { initState with
          polling_complete := true
          messages := [{ from_ := "old", subject := "o", body_text := "o" }] } :=
  C10_empty_manual_check_frame
    { initState with
      polling_complete := true
      messages := [{ from_ := "old", subject := "o", body_text := "o" }] }
    (ApiResponse.networkError : ApiResponse (List Message)) rfl

/-! ### Frame lemmas for the polling loop, used for the reachability
invariant -/

lemma perform_polling_loop_complete (check : Nat → List Message) :
    ∀ (r : Nat) (s : SessionState) (a sl c : Nat),
      (perform_polling_loop check s a r sl c).state.polling_complete = true := by
  intro r
  induction r with
  | zero => intro s a sl c; rfl
  | succ r ih =>
    intro s a sl c
    by_cases h : check a = []
    · rw [perform_polling_loop_succ_empty check s a r sl c h]
      exact ih _ _ _ _
    · rw [perform_polling_loop_succ_found check s a r sl c h]

lemma perform_polling_loop_max (check : Nat → List Message) :
    ∀ (r : Nat) (s : SessionState) (a sl c : Nat),
      (perform_polling_loop check s a r sl c).state.max_attempts = s.max_attempts := by
  intro r
  induction r with
  | zero => intro s a sl c; rfl
  | succ r ih =>
    intro s a sl c
    by_cases h : check a = []
    · rw [perform_polling_loop_succ_empty check s a r sl c h]
      exact ih _ _ _ _
    · rw [perform_polling_loop_succ_found check s a r sl c h]

lemma perform_polling_loop_email (check : Nat → List Message) :
    ∀ (r : Nat) (s : SessionState) (a sl c : Nat),
      (perform_polling_loop check s a r sl c).state.generated_email = s.generated_email := by
  intro r
  induction r with
  | zero => intro s a sl c; rfl
  | succ r ih =>
    intro s a sl c
    by_cases h : check a = []
    · rw [perform_polling_loop_succ_empty check s a r sl c h]
      exact ih _ _ _ _
    · rw [perform_polling_loop_succ_found check s a r sl c h]

lemma perform_polling_loop_attempts_le (check : Nat → List Message) :
    ∀ (r : Nat) (s : SessionState) (a sl c : Nat),
      (perform_polling_loop check s a r sl c).state.polling_attempts ≤
        s.polling_attempts + r := by
  intro r
  induction r with
  | zero =>
    intro s a sl c
    show s.polling_attempts ≤ s.polling_attempts + 0
    omega
  | succ r ih =>
    intro s a sl c
    by_cases h : check a = []
    · rw [perform_polling_loop_succ_empty check s a r sl c h]
      refine le_trans (ih _ (a + 1) (sl + 1) (c + 1)) (le_of_eq ?_)
      show s.polling_attempts + 1 + r = s.polling_attempts + (r + 1)
      omega
    · rw [perform_polling_loop_succ_found check s a r sl c h]
      show s.polling_attempts + 1 ≤ s.polling_attempts + (r + 1)
      omega

lemma perform_polling_loop_messages (check : Nat → List Message) :
    ∀ (r : Nat) (s : SessionState) (a sl c : Nat),
      (perform_polling_loop check s a r sl c).state.messages ≠ [] ∨
        ((perform_polling_loop check s a r sl c).state.messages = s.messages ∧
          (perform_polling_loop check s a r sl c).state.polling_attempts =
            s.polling_attempts + r) := by
  intro r
  induction r with
  | zero =>
    intro s a sl c
    refine Or.inr ⟨rfl, ?_⟩
    show s.polling_attempts = s.polling_attempts + 0
    omega
  | succ r ih =>
    intro s a sl c
    by_cases h : check a = []
    · rw [perform_polling_loop_succ_empty check s a r sl c h]
      rcases ih { s with polling_attempts := s.polling_attempts + 1 } (a + 1) (sl + 1)
          (c + 1) with h1 | ⟨hm, ha⟩
      · exact Or.inl h1
      · refine Or.inr ⟨hm, ?_⟩
        rw [ha]
        show s.polling_attempts + 1 + r = s.polling_attempts + (r + 1)
        omega
    · rw [perform_polling_loop_succ_found check s a r sl c h]
      exact Or.inl h

/-! ### Reachability invariant -/

/-- The invariant maintained by every user interaction: `max_attempts` is the
constant 6 set at initialisation; the attempt counter never exceeds it; while
polling is not complete the counter is 0 and no messages are stored; once
polling is complete either a non-empty result is stored or the counter
reached `max_attempts`. -/
def Inv (s : SessionState) : Prop :=
  s.max_attempts = 6 ∧
  s.polling_attempts ≤ s.max_attempts ∧
  (s.polling_complete = false → s.polling_attempts = 0 ∧ s.messages = []) ∧
  (s.polling_complete = true → s.messages ≠ [] ∨ s.polling_attempts = s.max_attempts)

lemma Inv_init : Inv initState := by
  refine ⟨rfl, ?_, ?_, ?_⟩
  · decide
  · intro _
    exact ⟨rfl, rfl⟩
  · intro h
    exact absurd h (by decide)

lemma Inv_apply_allocation (s : SessionState) (resp : ApiResponse (List Char))
    (h : Inv s) : Inv (apply_allocation s resp).state := by
  obtain ⟨hmax, hle, hnc, hc⟩ := h
  unfold apply_allocation
  cases hg : generate_email resp with
  | some e =>
    refine ⟨hmax, Nat.zero_le _, fun _ => ⟨rfl, rfl⟩, fun hco => ?_⟩
    exact absurd hco Bool.false_ne_true
  | none => exact ⟨hmax, hle, hnc, hc⟩

lemma Inv_step (s : SessionState) (e : UiEvent) (h : Inv s) : Inv (step s e) := by
  obtain ⟨hmax, hle, hnc, hc⟩ := h
  cases e with
  | setName v => exact ⟨hmax, hle, hnc, hc⟩
  | generateBtn en rn resp =>
    show Inv (generate_button s en rn resp).state
    unfold generate_button
    split
    · split
      · exact Inv_apply_allocation s resp ⟨hmax, hle, hnc, hc⟩
      · exact ⟨hmax, hle, hnc, hc⟩
    · exact Inv_apply_allocation s resp ⟨hmax, hle, hnc, hc⟩
  | renderInbox check =>
    show Inv (if _ then (perform_polling check s).state else s)
    split
    case isTrue hg =>
      simp only [Bool.and_eq_true, Bool.not_eq_true', decide_eq_true_eq] at hg
      obtain ⟨⟨_, hcf⟩, _⟩ := hg
      obtain ⟨ha0, _⟩ := hnc hcf
      unfold perform_polling
      have hcomp := perform_polling_loop_complete check s.max_attempts s 0 0 0
      have hmx := perform_polling_loop_max check s.max_attempts s 0 0 0
      have hatl := perform_polling_loop_attempts_le check s.max_attempts s 0 0 0
      refine ⟨by rw [hmx]; exact hmax, by rw [hmx]; omega, fun hff => ?_, fun _ => ?_⟩
      · exact absurd (hcomp.symm.trans hff) (by decide)
      · rcases perform_polling_loop_messages check s.max_attempts s 0 0 0 with h1 | ⟨_, ha⟩
        · exact Or.inl h1
        · refine Or.inr ?_
          rw [hmx]
          omega
    case isFalse => exact ⟨hmax, hle, hnc, hc⟩
  | manualBtn resp =>
    show Inv (if _ then manual_check s (check_messages resp) else s)
    split
    case isTrue hg =>
      simp only [Bool.and_eq_true] at hg
      unfold manual_check
      split
      case isTrue hmne =>
        refine ⟨hmax, hle, fun hcf => ?_, fun _ => Or.inl hmne⟩
        exact absurd (hg.2.symm.trans hcf) (by decide)
      case isFalse => exact ⟨hmax, hle, hnc, hc⟩
    case isFalse => exact ⟨hmax, hle, hnc, hc⟩

lemma reachable_Inv (s : SessionState) (h : Reachable s) : Inv s := by
  induction h with
  | init => exact Inv_init
  | next s e _ ih => exact Inv_step s e ih

/-! ### C5 -/

/-- Claim C5: in every session state reachable from a fresh session by user
interactions, `polling_attempts ≤ max_attempts`, and `polling_complete` is
true exactly when a non-empty poll result is stored or the attempt counter
reached `max_attempts`. -/
theorem C5_attempts_bounded_complete_iff (s : SessionState) (h : Reachable s) :
    s.polling_attempts ≤ s.max_attempts ∧
    (s.polling_complete = true ↔
      (s.messages ≠ [] ∨ s.polling_attempts = s.max_attempts)) := by
  obtain ⟨hmax, hle, hnc, hc⟩ := reachable_Inv s h
  refine ⟨hle, hc, fun hor => ?_⟩
  cases hb : s.polling_complete with
  | false =>
    obtain ⟨ha0, hm0⟩ := hnc hb
    rcases hor with hne | hatt
    · exact absurd hm0 hne
    · omega
  | true => rfl

/-- Witness for C5: the fresh initial state is reachable. -/
theorem C5_attempts_bounded_complete_iff_witness :
    initState.polling_attempts ≤ initState.max_attempts ∧
    (initState.polling_complete = true ↔
      (initState.messages ≠ [] ∨ initState.polling_attempts = initState.max_attempts)) :=
  C5_attempts_bounded_complete_iff initState Reachable.init

end TempMail
